import Mathlib

/-!
Shallow embedding of the like-plugin (src/plugin.py) in Lean 4.

The module has a single source file.  The functions of interest are:
  * `send_like` (plugin.py lines 23-80): a bounded loop that issues
    "like" requests of 10 each against an HTTP gateway until a cap of
    50 is hit or a failure occurs, returning (success, count, message);
  * `LikeCommand.execute` (lines 92-113): the command handler wrapping
    it, together with `LikeCommand.reply` (lines 115-142);
  * `LikeCommand.command_pattern` (line 90): the trigger regex.

The behaviour of the external gateway on the i-th HTTP call is
modelled by a value of `GatewayResult`: the `post` call may raise
(`transportError`), reading `resp.text` may raise (`readError`),
`resp.json()` may raise (`parseError`), or a JSON object is obtained,
carrying an optional `status` string, an optional `message` string and
the raw body `text`.  A whole run of the gateway is a function
`Nat → GatewayResult` giving the behaviour of each successive call.
-/

namespace LikePlugin

/-- Behaviour of the gateway on one HTTP call, as observed by the
`send_like` loop body (plugin.py lines 48-71). -/
inductive GatewayResult where
  | transportError : GatewayResult
  | readError : GatewayResult
  | parseError : GatewayResult
  | jsonReply (status : Option String) (message : Option String) (text : String) : GatewayResult
deriving DecidableEq

/-- `times_per_request = 10` (plugin.py line 30). -/
def times_per_request : Nat := 10

/-- `max_total = 50` (plugin.py line 31). -/
def max_total : Nat := 50

/-- The failure message computed on a non-ok status (plugin.py lines
68-70): the reply's `message` field when present and truthy
(non-empty), otherwise the fallback embedding the raw body text. -/
def nonOkMessage (message : Option String) (text : String) : String :=
  match message with
  | some m => if m = "" then "未知错误，响应内容: " ++ text else m
  | none => "未知错误，响应内容: " ++ text

/-- The `while True` loop of `send_like` (plugin.py lines 47-76),
started at call index `i` with accumulated count `count`.  Returns
(final count, failed_message, total number of HTTP calls issued).
Termination mirrors the code: each continuing iteration adds 10 to
`count`, and the loop stops as soon as `count ≥ 50`. -/
def sendLikeLoop (responses : Nat → GatewayResult) (i : Nat) (count : Nat) :
    Nat × String × Nat :=
  match responses i with
  | .transportError => (count, "网络请求异常", i + 1)
  | .readError => (count, "读取响应失败", i + 1)
  | .parseError => (count, "响应解析失败", i + 1)
  | .jsonReply status message text =>
      if status ≠ some "ok" then
        (count, nonOkMessage message text, i + 1)
      else if count + times_per_request ≥ max_total then
        (count + times_per_request,
         "已达到单次点赞上限" ++ toString max_total ++ "次", i + 1)
      else
        sendLikeLoop responses (i + 1) (count + times_per_request)
termination_by max_total - count
decreasing_by
  simp only [times_per_request, max_total] at *
  omega

/-- `send_like` (plugin.py lines 23-80): run the loop from count 0 and
return `(success, count, failed_message)` per lines 78-80: success iff
`count > 0`, in which case count is returned with an empty message,
otherwise `(False, 0, failed_message)`. -/
def send_like (responses : Nat → GatewayResult) : Bool × Nat × String :=
  let r := sendLikeLoop responses 0 0
  if r.1 > 0 then (true, r.1, "") else (false, 0, r.2.1)

/-- Number of outbound HTTP calls a run of `send_like` issues. -/
def sendLikeCalls (responses : Nat → GatewayResult) : Nat :=
  (sendLikeLoop responses 0 0).2.2

/-- Observable side effects of one run of `LikeCommand.execute`:
the identity resolution (`person_api.get_person_id` +
`get_person_value`, plugin.py lines 95-96), each outbound HTTP call of
`send_like`, each `self.send_text(...)`, and each invocation of
`self.reply(raw_reply)` recorded with its raw text. -/
inductive Effect where
  | personLookup : Effect
  | httpCall : Effect
  | sendText (msg : String) : Effect
  | replyCall (msg : String) : Effect
deriving DecidableEq

/-- Python truthiness test `not x` for an optional string (absent or
empty counts as falsy). -/
def strFalsy : Option String → Bool
  | none => true
  | some s => s = ""

/-- Python truthiness test `not x` for an optional integer (absent or
zero counts as falsy). -/
def natFalsy : Option Nat → Bool
  | none => true
  | some n => n = 0

/-- Environment of one invocation of `LikeCommand.execute`: the pieces
of host-framework state it reads.  `rewriteSegs` is the outcome of the
rewrite collaborator (`generator_api.rewrite_reply`): `some segs` when
it reports success with those text segments, `none` on failure. -/
structure ExecEnv where
  user_id : Option String
  person_name : Option String
  napcat_host : Option String
  napcat_port : Option Nat
  napcat_token : String
  enable_rewrite : Bool
  rewriteSegs : Option (List String)
  responses : Nat → GatewayResult

namespace LikeCommand

/-- `LikeCommand.reply` (plugin.py lines 115-142): when rewriting is
enabled and the rewrite collaborator succeeds, each rewritten segment
is sent in order; otherwise the raw message is sent directly.  Returns
(effects, returned string); the `replyCall` effect records the
invocation itself with its raw text. -/
def reply (enable_rewrite : Bool) (rewriteSegs : Option (List String))
    (raw_reply : String) : List Effect × String :=
  if enable_rewrite then
    match rewriteSegs with
    | some segs =>
        (Effect.replyCall raw_reply :: segs.map Effect.sendText, "已发送重写后的点赞回复")
    | none =>
        (Effect.replyCall raw_reply :: [Effect.sendText raw_reply], "已发送点赞回复")
  else
    (Effect.replyCall raw_reply :: [Effect.sendText raw_reply], "已发送点赞回复")

/-- `LikeCommand.execute` (plugin.py lines 92-113).  Note the order in
the source: the identity resolution (lines 95-96) runs before the
`if not user_id` guard (line 97), and the port is tested before the
host (line 103: `if not napcat_port or not napcat_host`).  Returns
(effects in order, (success, message, code)). -/
def execute (env : ExecEnv) : List Effect × Bool × String × Nat :=
  let lookup : List Effect := [Effect.personLookup]
  if strFalsy env.user_id then
    (lookup ++ [Effect.sendText "无法获取用户ID,点赞失败"], false, "无法获取用户ID", 1)
  else if natFalsy env.napcat_port || strFalsy env.napcat_host then
    let r := reply env.enable_rewrite env.rewriteSegs "Napcat服务配置不完整，点赞失败"
    (lookup ++ r.1, false, "Napcat服务配置不完整", 1)
  else
    let s := send_like env.responses
    let target : String :=
      if strFalsy env.person_name then "" else "为 " ++ env.person_name.getD "" ++ " "
    let raw_reply : String :=
      if s.1 then "已成功" ++ target ++ "点赞 " ++ toString s.2.1 ++ " 次"
      else target ++ "点赞失败: " ++ s.2.2
    let r := reply env.enable_rewrite env.rewriteSegs raw_reply
    (lookup ++ List.replicate (sendLikeCalls env.responses) Effect.httpCall ++ r.1,
     s.1, raw_reply ++ " " ++ r.2, 1)

end LikeCommand

/-- Star-free regular expressions, enough to transcribe the trigger
pattern on plugin.py line 90 (an anchored alternation of literals with
an optional prefix group). -/
inductive Regex where
  | lit (s : String) : Regex
  | alt (a b : Regex) : Regex
  | seq (a b : Regex) : Regex
  | opt (a : Regex) : Regex

/-- The (finite) language of a star-free regex. -/
def Regex.lang : Regex → List String
  | .lit s => [s]
  | .alt a b => a.lang ++ b.lang
  | .seq a b => (a.lang.map (fun x => b.lang.map (fun y => x ++ y))).flatten
  | .opt a => "" :: a.lang

/-- Anchored (full-string) matching, as `^...$` performs. -/
def Regex.fullMatch (r : Regex) (s : String) : Bool :=
  r.lang.contains s

/-- `command_pattern = r"^(((/|#)(like))|(/|#)?(赞我|麦麦赞我))$"`
(plugin.py line 90), transcribed subexpression by subexpression. -/
def command_pattern : Regex :=
  .alt (.seq (.alt (.lit "/") (.lit "#")) (.lit "like"))
       (.seq (.opt (.alt (.lit "/") (.lit "#"))) (.alt (.lit "赞我") (.lit "麦麦赞我")))

/-! Equation lemmas for one iteration of the loop, one per branch of
the body (plugin.py lines 48-76). -/

lemma sendLikeLoop_transport (responses : Nat → GatewayResult) (i count : Nat)
    (h : responses i = .transportError) :
    sendLikeLoop responses i count = (count, "网络请求异常", i + 1) := by
  rw [sendLikeLoop, h]

lemma sendLikeLoop_read (responses : Nat → GatewayResult) (i count : Nat)
    (h : responses i = .readError) :
    sendLikeLoop responses i count = (count, "读取响应失败", i + 1) := by
  rw [sendLikeLoop, h]

lemma sendLikeLoop_parse (responses : Nat → GatewayResult) (i count : Nat)
    (h : responses i = .parseError) :
    sendLikeLoop responses i count = (count, "响应解析失败", i + 1) := by
  rw [sendLikeLoop, h]

lemma sendLikeLoop_json (responses : Nat → GatewayResult) (i count : Nat)
    (st m : Option String) (t : String) (h : responses i = .jsonReply st m t) :
    sendLikeLoop responses i count =
      if st ≠ some "ok" then (count, nonOkMessage m t, i + 1)
      else if count + times_per_request ≥ max_total then
        (count + times_per_request,
         "已达到单次点赞上限" ++ toString max_total ++ "次", i + 1)
      else sendLikeLoop responses (i + 1) (count + times_per_request) := by
  rw [sendLikeLoop, h]

/-- An ok reply below the cap: the loop continues with count + 10. -/
lemma sendLikeLoop_ok_step (responses : Nat → GatewayResult) (i count : Nat)
    (m : Option String) (t : String)
    (h : responses i = .jsonReply (some "ok") m t) (hcap : count + 10 < 50) :
    sendLikeLoop responses i count = sendLikeLoop responses (i + 1) (count + 10) := by
  rw [sendLikeLoop_json responses i count (some "ok") m t h, if_neg (by simp),
      if_neg (by simp only [times_per_request, max_total]; omega)]
  simp only [times_per_request]

/-- An ok reply that reaches the cap: the loop stops with the
cap-reached message. -/
lemma sendLikeLoop_ok_cap (responses : Nat → GatewayResult) (i count : Nat)
    (m : Option String) (t : String)
    (h : responses i = .jsonReply (some "ok") m t) (hcap : count + 10 ≥ 50) :
    sendLikeLoop responses i count = (count + 10, "已达到单次点赞上限50次", i + 1) := by
  rw [sendLikeLoop_json responses i count (some "ok") m t h, if_neg (by simp),
      if_pos (by simp only [times_per_request, max_total]; omega)]
  rfl

/-- Loop invariant: starting from a count that is a multiple of 10
with at most 4 increments consumed, the final count is a multiple of
10 bounded by 50, and between 1 and (5 - d) further HTTP calls are
issued. -/
lemma sendLikeLoop_spec (responses : Nat → GatewayResult) :
    ∀ i count : Nat, ∀ d : Nat, count = 10 * d → d ≤ 4 →
      (∃ e : Nat, (sendLikeLoop responses i count).1 = 10 * e ∧ e ≤ 5) ∧
      i + 1 ≤ (sendLikeLoop responses i count).2.2 ∧
      (sendLikeLoop responses i count).2.2 ≤ i + (5 - d) := by
  refine sendLikeLoop.induct responses
    (fun i count => ∀ d : Nat, count = 10 * d → d ≤ 4 →
      (∃ e : Nat, (sendLikeLoop responses i count).1 = 10 * e ∧ e ≤ 5) ∧
      i + 1 ≤ (sendLikeLoop responses i count).2.2 ∧
      (sendLikeLoop responses i count).2.2 ≤ i + (5 - d))
    ?_ ?_ ?_ ?_ ?_ ?_
  · intro i count h d hd hd4
    rw [sendLikeLoop_transport responses i count h]
    dsimp only
    exact ⟨⟨d, hd, by omega⟩, by omega, by omega⟩
  · intro i count h d hd hd4
    rw [sendLikeLoop_read responses i count h]
    dsimp only
    exact ⟨⟨d, hd, by omega⟩, by omega, by omega⟩
  · intro i count h d hd hd4
    rw [sendLikeLoop_parse responses i count h]
    dsimp only
    exact ⟨⟨d, hd, by omega⟩, by omega, by omega⟩
  · intro i count st m t h hst d hd hd4
    rw [sendLikeLoop_json responses i count st m t h, if_pos hst]
    dsimp only
    exact ⟨⟨d, hd, by omega⟩, by omega, by omega⟩
  · intro i count st m t h hst hcap d hd hd4
    rw [sendLikeLoop_json responses i count st m t h, if_neg hst, if_pos hcap]
    dsimp only
    simp only [times_per_request, max_total] at hcap ⊢
    exact ⟨⟨d + 1, by omega, by omega⟩, by omega, by omega⟩
  · intro i count st m t h hst hcap ih d hd hd4
    rw [sendLikeLoop_json responses i count st m t h, if_neg hst, if_neg hcap]
    simp only [times_per_request, max_total] at hcap
    have := ih (d + 1) (by simp only [times_per_request]; omega) (by omega)
    exact ⟨this.1, by omega, by omega⟩

/-- C1: when the gateway returns status "ok" for the first three calls
and the fourth call raises a transport exception, `send_like` returns
success=true with count=30 — partial success is preserved, since the
success flag only depends on the accumulated count being positive. -/
theorem C1_partial_success_preserved
    (responses : Nat → GatewayResult) (m0 m1 m2 : Option String) (t0 t1 t2 : String)
    (h0 : responses 0 = .jsonReply (some "ok") m0 t0)
    (h1 : responses 1 = .jsonReply (some "ok") m1 t1)
    (h2 : responses 2 = .jsonReply (some "ok") m2 t2)
    (h3 : responses 3 = .transportError) :
    send_like responses = (true, 30, "") := by
  have l0 := sendLikeLoop_ok_step responses 0 0 m0 t0 h0 (by omega)
  have l1 := sendLikeLoop_ok_step responses 1 10 m1 t1 h1 (by omega)
  have l2 := sendLikeLoop_ok_step responses 2 20 m2 t2 h2 (by omega)
  have l3 := sendLikeLoop_transport responses 3 30 h3
  norm_num at l0 l1 l2
  have hloop : sendLikeLoop responses 0 0 = (30, "网络请求异常", 4) := by
    rw [l0, l1, l2, l3]
  simp [send_like, hloop]

/-- Witness for C1 at a concrete gateway run. -/
def c1responses : Nat → GatewayResult := fun i =>
  if i ≤ 2 then .jsonReply (some "ok") none "r" else .transportError

theorem C1_partial_success_preserved_witness :
    send_like c1responses = (true, 30, "") :=
  C1_partial_success_preserved c1responses none none none "r" "r" "r" rfl rfl rfl rfl

/-- C2: when every gateway reply is a JSON object with status "ok",
`send_like` issues exactly 5 HTTP calls, stops at the cap of 50, and
returns success=true with count=50. -/
theorem C2_all_ok_five_calls_cap_50
    (responses : Nat → GatewayResult)
    (h : ∀ i, ∃ m t, responses i = .jsonReply (some "ok") m t) :
    send_like responses = (true, 50, "") ∧ sendLikeCalls responses = 5 := by
  obtain ⟨m0, t0, h0⟩ := h 0
  obtain ⟨m1, t1, h1⟩ := h 1
  obtain ⟨m2, t2, h2⟩ := h 2
  obtain ⟨m3, t3, h3⟩ := h 3
  obtain ⟨m4, t4, h4⟩ := h 4
  have l0 := sendLikeLoop_ok_step responses 0 0 m0 t0 h0 (by omega)
  have l1 := sendLikeLoop_ok_step responses 1 10 m1 t1 h1 (by omega)
  have l2 := sendLikeLoop_ok_step responses 2 20 m2 t2 h2 (by omega)
  have l3 := sendLikeLoop_ok_step responses 3 30 m3 t3 h3 (by omega)
  have l4 := sendLikeLoop_ok_cap responses 4 40 m4 t4 h4 (by omega)
  norm_num at l0 l1 l2 l3 l4
  have hloop : sendLikeLoop responses 0 0 = (50, "已达到单次点赞上限50次", 5) := by
    rw [l0, l1, l2, l3, l4]
  constructor
  · simp [send_like, hloop]
  · simp [sendLikeCalls, hloop]

theorem C2_all_ok_five_calls_cap_50_witness :
    send_like (fun _ => GatewayResult.jsonReply (some "ok") none "r") = (true, 50, "") ∧
    sendLikeCalls (fun _ => GatewayResult.jsonReply (some "ok") none "r") = 5 :=
  C2_all_ok_five_calls_cap_50 (fun _ => GatewayResult.jsonReply (some "ok") none "r")
    (fun _ => ⟨none, "r", rfl⟩)

/-- C5: a JSON reply whose status is not the literal "ok" stops the
loop immediately; the failure message is the reply's `message` field
when present and non-empty, and otherwise the fallback embedding the
raw body text; on the first call the outcome is failure with count=0
after exactly one HTTP call, regardless of the message content. -/
theorem C5_non_ok_status_stops
    (responses : Nat → GatewayResult) (st msg : Option String) (text : String)
    (hst : st ≠ some "ok") :
    (∀ i count, responses i = .jsonReply st msg text →
        sendLikeLoop responses i count = (count, nonOkMessage msg text, i + 1)) ∧
    (responses 0 = .jsonReply st msg text →
        send_like responses = (false, 0, nonOkMessage msg text) ∧
        sendLikeCalls responses = 1) ∧
    (∀ m, msg = some m → m ≠ "" → nonOkMessage msg text = m) ∧
    (msg = none ∨ msg = some "" → nonOkMessage msg text = "未知错误，响应内容: " ++ text) := by
  have hstop : ∀ i count, responses i = .jsonReply st msg text →
      sendLikeLoop responses i count = (count, nonOkMessage msg text, i + 1) := by
    intro i count h
    rw [sendLikeLoop_json responses i count st msg text h, if_pos hst]
  refine ⟨hstop, ?_, ?_, ?_⟩
  · intro h0
    have hloop := hstop 0 0 h0
    constructor
    · simp [send_like, hloop]
    · simp [sendLikeCalls, hloop]
  · intro m hm hne
    simp [nonOkMessage, hm, hne]
  · rintro (hm | hm) <;> simp [nonOkMessage, hm]

theorem C5_non_ok_status_stops_witness :
    send_like (fun _ => GatewayResult.jsonReply (some "failed") none "raw") =
      (false, 0, "未知错误，响应内容: raw") ∧
    sendLikeCalls (fun _ => GatewayResult.jsonReply (some "failed") none "raw") = 1 := by
  have h := C5_non_ok_status_stops
    (fun _ => GatewayResult.jsonReply (some "failed") none "raw")
    (some "failed") none "raw" (by simp)
  have h2 := h.2.1 rfl
  have h4 := h.2.2.2 (Or.inl rfl)
  rw [h4] at h2
  exact h2

/-- C6: a transport exception on the very first call yields
success=false, count=0, failure_message="网络请求异常". -/
theorem C6_first_call_transport_exception
    (responses : Nat → GatewayResult) (h : responses 0 = .transportError) :
    send_like responses = (false, 0, "网络请求异常") := by
  have hloop := sendLikeLoop_transport responses 0 0 h
  simp [send_like, hloop]

theorem C6_first_call_transport_exception_witness :
    send_like (fun _ => GatewayResult.transportError) = (false, 0, "网络请求异常") :=
  C6_first_call_transport_exception (fun _ => GatewayResult.transportError) rfl

/-- C8: for every sequence of gateway behaviours the (total, hence
terminating) `send_like` run issues at least one and at most five
outbound HTTP calls. -/
theorem C8_between_one_and_five_calls (responses : Nat → GatewayResult) :
    1 ≤ sendLikeCalls responses ∧ sendLikeCalls responses ≤ 5 := by
  have h := sendLikeLoop_spec responses 0 0 0 (by norm_num) (by norm_num)
  unfold sendLikeCalls
  omega

/-- C9: the triple returned by `send_like` always satisfies:
success=true exactly when count>0; count is a multiple of 10 between
0 and 50; and on success the returned failure message is the empty
string (the cap-reached message is never surfaced). -/
theorem C9_result_invariant (responses : Nat → GatewayResult) :
    ((send_like responses).1 = true ↔ 0 < (send_like responses).2.1) ∧
    (send_like responses).2.1 % 10 = 0 ∧ (send_like responses).2.1 ≤ 50 ∧
    ((send_like responses).1 = true → (send_like responses).2.2 = "") := by
  obtain ⟨⟨e, he, he5⟩, -, -⟩ := sendLikeLoop_spec responses 0 0 0 (by norm_num) (by norm_num)
  by_cases hc : (sendLikeLoop responses 0 0).1 > 0
  · have hs : send_like responses =
        (true, (sendLikeLoop responses 0 0).1, "") := by
      simp [send_like, hc]
    rw [hs]
    dsimp only
    exact ⟨by simpa using hc, by omega, by omega, fun _ => rfl⟩
  · have hs : send_like responses =
        (false, 0, (sendLikeLoop responses 0 0).2.1) := by
      simp [send_like, hc]
    rw [hs]
    simp

/-- A concrete invocation whose message context lacks a user id. -/
def envNoUser : ExecEnv :=
  ⟨none, none, some "127.0.0.1", some 9999, "", false, none, fun _ => .transportError⟩

/-- C3 as stated is false: even when the user identifier is absent the
handler performs the identity resolution (plugin.py lines 95-96 run
before the guard on line 97), so it does not stop before the person
lookup. -/
theorem C3_counterexample_lookup_happens :
    strFalsy envNoUser.user_id = true ∧
    Effect.personLookup ∈ (LikeCommand.execute envNoUser).1 := by
  constructor
  · rfl
  · simp [LikeCommand.execute, envNoUser, strFalsy]

/-- C3 amended: when the incoming message context lacks a user
identifier, the handler performs the identity resolution first, then
stops before any HTTP call, sends the failure notice, and reports
failure with code 1. -/
theorem C3_missing_user_id_short_circuit
    (env : ExecEnv) (h : strFalsy env.user_id = true) :
    (LikeCommand.execute env).1 =
      [Effect.personLookup, Effect.sendText "无法获取用户ID,点赞失败"] ∧
    Effect.httpCall ∉ (LikeCommand.execute env).1 ∧
    (LikeCommand.execute env).2 = (false, "无法获取用户ID", 1) := by
  simp [LikeCommand.execute, h]

theorem C3_missing_user_id_short_circuit_witness :
    (LikeCommand.execute envNoUser).1 =
      [Effect.personLookup, Effect.sendText "无法获取用户ID,点赞失败"] ∧
    Effect.httpCall ∉ (LikeCommand.execute envNoUser).1 ∧
    (LikeCommand.execute envNoUser).2 = (false, "无法获取用户ID", 1) :=
  C3_missing_user_id_short_circuit envNoUser rfl

/-- A concrete invocation with both the user id and the gateway host
missing. -/
def envNoUserNoHost : ExecEnv :=
  ⟨none, none, none, some 9999, "", false, none, fun _ => .transportError⟩

/-- C7 as stated is false: when the user identifier is also missing,
the handler returns from the user-id guard, so no configuration-error
notice is ever sent even though the host is missing. -/
theorem C7_counterexample_user_guard_first :
    strFalsy envNoUserNoHost.napcat_host = true ∧
    Effect.replyCall "Napcat服务配置不完整，点赞失败" ∉ (LikeCommand.execute envNoUserNoHost).1 ∧
    (LikeCommand.execute envNoUserNoHost).2 = (false, "无法获取用户ID", 1) := by
  refine ⟨rfl, ?_, ?_⟩
  · simp [LikeCommand.execute, envNoUserNoHost, strFalsy]
  · simp [LikeCommand.execute, envNoUserNoHost, strFalsy]

/-- The effects of `LikeCommand.reply` never include an HTTP call, and
always include the `replyCall` record of the raw text it was invoked
with. -/
lemma reply_effects (er : Bool) (segs : Option (List String)) (raw : String) :
    Effect.httpCall ∉ (LikeCommand.reply er segs raw).1 ∧
    Effect.replyCall raw ∈ (LikeCommand.reply er segs raw).1 := by
  cases er <;> rcases segs with - | l <;> simp [LikeCommand.reply]

/-- C7 amended: when the user identifier is present but the configured
gateway host or port is missing (falsy), the handler makes no HTTP
call, sends the configuration-error notice through `reply`, and
reports failure with code 1. -/
theorem C7_missing_config_short_circuit
    (env : ExecEnv) (huid : strFalsy env.user_id = false)
    (hcfg : (natFalsy env.napcat_port || strFalsy env.napcat_host) = true) :
    Effect.httpCall ∉ (LikeCommand.execute env).1 ∧
    Effect.replyCall "Napcat服务配置不完整，点赞失败" ∈ (LikeCommand.execute env).1 ∧
    (LikeCommand.execute env).2 = (false, "Napcat服务配置不完整", 1) := by
  have hr := reply_effects env.enable_rewrite env.rewriteSegs "Napcat服务配置不完整，点赞失败"
  have hex : LikeCommand.execute env =
      (Effect.personLookup ::
        (LikeCommand.reply env.enable_rewrite env.rewriteSegs "Napcat服务配置不完整，点赞失败").1,
       false, "Napcat服务配置不完整", 1) := by
    simp [LikeCommand.execute, huid, hcfg]
  rw [hex]
  refine ⟨?_, ?_, rfl⟩
  · dsimp only
    simp only [List.mem_cons]
    rintro (h | h)
    · exact absurd h (by simp)
    · exact hr.1 h
  · dsimp only
    exact List.mem_cons_of_mem _ hr.2

/-- A concrete invocation with the user id present but the gateway
host missing. -/
def envNoHost : ExecEnv :=
  ⟨some "12345", some "张三", none, some 9999, "", true, none, fun _ => .transportError⟩

theorem C7_missing_config_short_circuit_witness :
    Effect.httpCall ∉ (LikeCommand.execute envNoHost).1 ∧
    Effect.replyCall "Napcat服务配置不完整，点赞失败" ∈ (LikeCommand.execute envNoHost).1 ∧
    (LikeCommand.execute envNoHost).2 = (false, "Napcat服务配置不完整", 1) :=
  C7_missing_config_short_circuit envNoHost rfl rfl

/-- C10: on every return path of `LikeCommand.execute` — missing user
id, missing gateway configuration, like-requester success, and
like-requester failure — the third component of the returned
(success, message, code) triple is the constant 1. -/
theorem C10_code_always_one (env : ExecEnv) :
    (LikeCommand.execute env).2.2.2 = 1 := by
  by_cases h1 : strFalsy env.user_id = true
  · simp [LikeCommand.execute, h1]
  · by_cases h2 : (natFalsy env.napcat_port || strFalsy env.napcat_host) = true
    · simp [LikeCommand.execute, h1, h2]
    · simp [LikeCommand.execute, h1, h2]

/-- C4 as stated is false: the bare text "like" (no `/` or `#` prefix)
does not match the trigger pattern, since the regex requires the
prefix alternative before the English word. -/
theorem C4_counterexample_bare_like :
    Regex.fullMatch command_pattern "like" = false := by rfl

/-- C4 amended: the trigger pattern matches exactly the eight texts
/like, #like, 赞我, 麦麦赞我, /赞我, /麦麦赞我, #赞我, #麦麦赞我 —
bare "like" without a prefix is not among them — and no other text
matches. -/
theorem C4_trigger_pattern_language (s : String) :
    Regex.fullMatch command_pattern s = true ↔
      s ∈ ["/like", "#like", "赞我", "麦麦赞我", "/赞我", "/麦麦赞我", "#赞我", "#麦麦赞我"] := by
  rw [Regex.fullMatch,
      show command_pattern.lang =
        ["/like", "#like", "赞我", "麦麦赞我", "/赞我", "/麦麦赞我", "#赞我", "#麦麦赞我"] from rfl]
  simp [List.contains, List.elem_iff]

end LikePlugin
